import Mathlib

/-!
Shallow embedding of the measurement-calculation core (`calculator.py`) of the
mfit repository, together with theorems settling the specification claims.

Modelling conventions:
* pixel coordinates and the declared height are exact rationals (the model of
  the Python floats appearing in the data), so all dictionary lookups, list
  filters and comparisons performed on raw coordinates are decidable;
* measurement results live in `ℝ` because the source uses `math.sqrt` and
  `math.pi`;
* a Python dict from landmark name to point is an association list, a lookup
  that raises `KeyError(name)` is `Except.error (CalcErr.keyError name)`, and
  the `ValueError`s raised by calibration are the remaining error constructors;
* the expression `h = ((a - b) ** 2) / ((a + b) ** 2)` in
  `ramanujan_ellipse_circumference` raises `ZeroDivisionError` in Python when
  `(a + b) ** 2 == 0`, even though `h` is never used afterwards; this is
  modelled by the explicit guard in the Lean definition.
-/

namespace MFit

/-- A landmark point: pixel coordinates `(x, y)`. -/
abbrev Point := ℚ × ℚ

/-- A LandmarkSet: the Python dict from anatomical name to point, modelled as
an association list. -/
abbrev LandmarkSet := List (String × Point)

/-- Errors the calculator can raise: `keyError` models Python `KeyError`
(a missing landmark name), the three `ValueError` sites of
`calibrate_pixel_to_cm` get one constructor each, and `zeroDivision` models
the `ZeroDivisionError` inside `ramanujan_ellipse_circumference`. -/
inductive CalcErr where
  | keyError (name : String)
  | emptyLandmarks
  | invalidHeight
  | noYCoordinates
  | invalidHeightInPixels
  | zeroDivision
deriving DecidableEq

/-- `lms[k]` in Python: the value when the key is present, `KeyError k`
otherwise. -/
def dictGet (lms : LandmarkSet) (k : String) : Except CalcErr Point :=
  match lms.lookup k with
  | some p => Except.ok p
  | none => Except.error (CalcErr.keyError k)

/-- `euclidean_distance` from `calculator.py`:
`math.sqrt((p2[0] - p1[0]) ** 2 + (p2[1] - p1[1]) ** 2)`. -/
noncomputable def euclidean_distance (p1 p2 : Point) : ℝ :=
  Real.sqrt (((p2.1 : ℝ) - (p1.1 : ℝ)) ^ 2 + ((p2.2 : ℝ) - (p1.2 : ℝ)) ^ 2)

section
open Classical

/-- `ramanujan_ellipse_circumference` from `calculator.py`.  The source first
computes `h = ((a - b) ** 2) / ((a + b) ** 2)` (never used afterwards); when
the denominator `(a + b) ** 2` is zero Python raises `ZeroDivisionError`,
which the guard models.  Otherwise the returned value is
`math.pi * (3 * (a + b) - math.sqrt((3 * a + b) * (a + 3 * b)))`. -/
noncomputable def ramanujan_ellipse_circumference (a b : ℝ) : Except CalcErr ℝ :=
  if (a + b) ^ 2 = 0 then Except.error CalcErr.zeroDivision
  else Except.ok (Real.pi * (3 * (a + b) - Real.sqrt ((3 * a + b) * (a + 3 * b))))

/-- The list `[coord[1] for coord in front_landmarks.values()]`. -/
def yCoordinates (lms : LandmarkSet) : List ℚ :=
  lms.map (fun kv => kv.2.2)

/-- Python `min` over a list, as a fold; the junk value `0` for the empty
list is never reached by the source, which guards emptiness first. -/
def listMin : List ℚ → ℚ
  | [] => 0
  | x :: xs => xs.foldl min x

/-- Python `max` over a list, as a fold; junk value `0` on the empty list. -/
def listMax : List ℚ → ℚ
  | [] => 0
  | x :: xs => xs.foldl max x

/-- `calibrate_pixel_to_cm` from `calculator.py`, with one error constructor
per `raise ValueError` site. -/
def calibrate_pixel_to_cm (front_landmarks : LandmarkSet)
    (user_height_cm : ℚ) : Except CalcErr ℚ :=
  if front_landmarks = [] then Except.error CalcErr.emptyLandmarks
  else if user_height_cm ≤ 0 then Except.error CalcErr.invalidHeight
  else
    let y_coordinates := yCoordinates front_landmarks
    if y_coordinates = [] then Except.error CalcErr.noYCoordinates
    else
      let min_y := listMin y_coordinates
      let max_y := listMax y_coordinates
      let height_in_pixels := max_y - min_y
      if height_in_pixels ≤ 0 then Except.error CalcErr.invalidHeightInPixels
      else Except.ok (user_height_cm / height_in_pixels)

/-- `calculate_shoulder_width` from `calculator.py`. -/
noncomputable def calculate_shoulder_width (front_landmarks : LandmarkSet)
    (pixel_to_cm : ℚ) : Except CalcErr ℝ := do
  let left_shoulder ← dictGet front_landmarks "LEFT_SHOULDER"
  let right_shoulder ← dictGet front_landmarks "RIGHT_SHOULDER"
  let distance_px := euclidean_distance left_shoulder right_shoulder
  return distance_px * (pixel_to_cm : ℝ)

/-- `calculate_sleeve_length` from `calculator.py` (`side` is `"LEFT"` or
`"RIGHT"` at every call site). -/
noncomputable def calculate_sleeve_length (front_landmarks : LandmarkSet)
    (pixel_to_cm : ℚ) (side : String) : Except CalcErr ℝ := do
  let shoulder ← dictGet front_landmarks (side ++ "_SHOULDER")
  let elbow ← dictGet front_landmarks (side ++ "_ELBOW")
  let wrist ← dictGet front_landmarks (side ++ "_WRIST")
  let shoulder_to_elbow := euclidean_distance shoulder elbow
  let elbow_to_wrist := euclidean_distance elbow wrist
  return (shoulder_to_elbow + elbow_to_wrist) * (pixel_to_cm : ℝ)

/-- `calculate_inseam` from `calculator.py`. -/
noncomputable def calculate_inseam (front_landmarks : LandmarkSet)
    (pixel_to_cm : ℚ) : Except CalcErr ℝ := do
  let left_hip ← dictGet front_landmarks "LEFT_HIP"
  let right_hip ← dictGet front_landmarks "RIGHT_HIP"
  let crotch : Point := ((left_hip.1 + right_hip.1) / 2, max left_hip.2 right_hip.2)
  let left_ankle ← dictGet front_landmarks "LEFT_ANKLE"
  let right_ankle ← dictGet front_landmarks "RIGHT_ANKLE"
  let left_inseam_px := euclidean_distance crotch left_ankle
  let right_inseam_px := euclidean_distance crotch right_ankle
  return ((left_inseam_px + right_inseam_px) / 2) * (pixel_to_cm : ℝ)

/-- `calculate_outseam` from `calculator.py`. -/
noncomputable def calculate_outseam (front_landmarks : LandmarkSet)
    (pixel_to_cm : ℚ) : Except CalcErr ℝ := do
  let left_hip ← dictGet front_landmarks "LEFT_HIP"
  let right_hip ← dictGet front_landmarks "RIGHT_HIP"
  let left_ankle ← dictGet front_landmarks "LEFT_ANKLE"
  let right_ankle ← dictGet front_landmarks "RIGHT_ANKLE"
  let left_outseam_px := euclidean_distance left_hip left_ankle
  let right_outseam_px := euclidean_distance right_hip right_ankle
  return ((left_outseam_px + right_outseam_px) / 2) * (pixel_to_cm : ℝ)

/-- `calculate_neck_circumference` from `calculator.py`. -/
noncomputable def calculate_neck_circumference (front_landmarks : LandmarkSet)
    (side_landmarks : LandmarkSet) (pixel_to_cm : ℚ) : Except CalcErr ℝ := do
  let left_shoulder_front ← dictGet front_landmarks "LEFT_SHOULDER"
  let right_shoulder_front ← dictGet front_landmarks "RIGHT_SHOULDER"
  let shoulder_width_px := euclidean_distance left_shoulder_front right_shoulder_front
  let neck_width_px := shoulder_width_px * (3 / 10)
  let left_shoulder_side ← dictGet side_landmarks "LEFT_SHOULDER"
  let right_shoulder_side ← dictGet side_landmarks "RIGHT_SHOULDER"
  let neck_depth_px : ℝ :=
    ((max left_shoulder_side.1 right_shoulder_side.1
      - min left_shoulder_side.1 right_shoulder_side.1 : ℚ) : ℝ) * (3 / 10)
  let neck_depth_px : ℝ :=
    if neck_depth_px < neck_width_px * (3 / 10) then neck_width_px * (7 / 10)
    else neck_depth_px
  let a := (neck_width_px / 2) * (pixel_to_cm : ℝ)
  let b := (neck_depth_px / 2) * (pixel_to_cm : ℝ)
  ramanujan_ellipse_circumference a b

/-- `calculate_chest_circumference` from `calculator.py`. -/
noncomputable def calculate_chest_circumference (front_landmarks : LandmarkSet)
    (side_landmarks : LandmarkSet) (pixel_to_cm : ℚ) : Except CalcErr ℝ := do
  let left_shoulder ← dictGet front_landmarks "LEFT_SHOULDER"
  let right_shoulder ← dictGet front_landmarks "RIGHT_SHOULDER"
  let chest_width_px := euclidean_distance left_shoulder right_shoulder * (11 / 10)
  let left_shoulder_side ← dictGet side_landmarks "LEFT_SHOULDER"
  let right_shoulder_side ← dictGet side_landmarks "RIGHT_SHOULDER"
  let chest_y : ℚ := (left_shoulder_side.2 + right_shoulder_side.2) / 2
  let left_hip_side ← dictGet side_landmarks "LEFT_HIP"
  let tolerance : ℚ := |left_shoulder_side.2 - left_hip_side.2| * (2 / 10)
  let chest_level_points : List ℚ :=
    (side_landmarks.filter (fun kv => decide (|kv.2.2 - chest_y| < tolerance))).map
      (fun kv => kv.2.1)
  let chest_depth_px : ℚ :=
    if chest_level_points ≠ [] then
      listMax chest_level_points - listMin chest_level_points
    else |left_shoulder_side.1 - right_shoulder_side.1|
  let a := (chest_width_px / 2) * (pixel_to_cm : ℝ)
  let b := ((chest_depth_px : ℝ) / 2) * (pixel_to_cm : ℝ)
  ramanujan_ellipse_circumference a b

/-- `calculate_waist_circumference` from `calculator.py`. -/
noncomputable def calculate_waist_circumference (front_landmarks : LandmarkSet)
    (side_landmarks : LandmarkSet) (pixel_to_cm : ℚ) : Except CalcErr ℝ := do
  let left_hip ← dictGet front_landmarks "LEFT_HIP"
  let right_hip ← dictGet front_landmarks "RIGHT_HIP"
  let waist_width_px := euclidean_distance left_hip right_hip
  let left_hip_side ← dictGet side_landmarks "LEFT_HIP"
  let right_hip_side ← dictGet side_landmarks "RIGHT_HIP"
  let waist_y : ℚ := (left_hip_side.2 + right_hip_side.2) / 2
  let left_shoulder_side ← dictGet side_landmarks "LEFT_SHOULDER"
  let tolerance : ℚ := |left_hip_side.2 - left_shoulder_side.2| * (1 / 10)
  let waist_level_points : List ℚ :=
    (side_landmarks.filter (fun kv => decide (|kv.2.2 - waist_y| < tolerance))).map
      (fun kv => kv.2.1)
  let waist_depth_px : ℚ :=
    if waist_level_points ≠ [] then
      listMax waist_level_points - listMin waist_level_points
    else |left_hip_side.1 - right_hip_side.1|
  let a := (waist_width_px / 2) * (pixel_to_cm : ℝ)
  let b := ((waist_depth_px : ℝ) / 2) * (pixel_to_cm : ℝ)
  ramanujan_ellipse_circumference a b

/-- `calculate_hip_circumference` from `calculator.py`. -/
noncomputable def calculate_hip_circumference (front_landmarks : LandmarkSet)
    (side_landmarks : LandmarkSet) (pixel_to_cm : ℚ) : Except CalcErr ℝ := do
  let left_hip ← dictGet front_landmarks "LEFT_HIP"
  let right_hip ← dictGet front_landmarks "RIGHT_HIP"
  let hip_width_px := euclidean_distance left_hip right_hip
  let left_hip_side ← dictGet side_landmarks "LEFT_HIP"
  let right_hip_side ← dictGet side_landmarks "RIGHT_HIP"
  let hip_y : ℚ := (left_hip_side.2 + right_hip_side.2) / 2
  let left_knee_side ← dictGet side_landmarks "LEFT_KNEE"
  let tolerance : ℚ := |left_hip_side.2 - left_knee_side.2| * (2 / 10)
  let hip_level_points : List ℚ :=
    (side_landmarks.filter (fun kv => decide (|kv.2.2 - hip_y| < tolerance))).map
      (fun kv => kv.2.1)
  let hip_depth_px : ℚ :=
    if hip_level_points ≠ [] then
      listMax hip_level_points - listMin hip_level_points
    else |left_hip_side.1 - right_hip_side.1|
  let a := (hip_width_px / 2) * (pixel_to_cm : ℝ)
  let b := ((hip_depth_px : ℝ) / 2) * (pixel_to_cm : ℝ)
  ramanujan_ellipse_circumference a b

/-- `calculate_bicep_circumference` from `calculator.py` (the midpoint
`bicep_x_front`, `bicep_y_front` computed by the source is unused and
omitted). -/
noncomputable def calculate_bicep_circumference (front_landmarks : LandmarkSet)
    (side_landmarks : LandmarkSet) (pixel_to_cm : ℚ) (side : String) :
    Except CalcErr ℝ := do
  let shoulder ← dictGet front_landmarks (side ++ "_SHOULDER")
  let elbow ← dictGet front_landmarks (side ++ "_ELBOW")
  let arm_length_px := euclidean_distance shoulder elbow
  let bicep_width_px := arm_length_px * (2 / 10)
  let shoulder_side ← dictGet side_landmarks (side ++ "_SHOULDER")
  let elbow_side ← dictGet side_landmarks (side ++ "_ELBOW")
  let arm_length_side_px := euclidean_distance shoulder_side elbow_side
  let bicep_depth_px := arm_length_side_px * (2 / 10)
  let a := (bicep_width_px / 2) * (pixel_to_cm : ℝ)
  let b := (bicep_depth_px / 2) * (pixel_to_cm : ℝ)
  ramanujan_ellipse_circumference a b

/-- `calculate_thigh_circumference` from `calculator.py`. -/
noncomputable def calculate_thigh_circumference (front_landmarks : LandmarkSet)
    (side_landmarks : LandmarkSet) (pixel_to_cm : ℚ) (side : String) :
    Except CalcErr ℝ := do
  let hip ← dictGet front_landmarks (side ++ "_HIP")
  let knee ← dictGet front_landmarks (side ++ "_KNEE")
  let thigh_length_px := euclidean_distance hip knee
  let thigh_width_px := thigh_length_px * (25 / 100)
  let hip_side ← dictGet side_landmarks (side ++ "_HIP")
  let knee_side ← dictGet side_landmarks (side ++ "_KNEE")
  let thigh_length_side_px := euclidean_distance hip_side knee_side
  let thigh_depth_px := thigh_length_side_px * (25 / 100)
  let a := (thigh_width_px / 2) * (pixel_to_cm : ℝ)
  let b := (thigh_depth_px / 2) * (pixel_to_cm : ℝ)
  ramanujan_ellipse_circumference a b

/-- `calculate_all_measurements` from `calculator.py`: calibrate once, then
build the result dict; the dict literal evaluates its values in source order,
so the first exception raised aborts the whole call. -/
noncomputable def calculate_all_measurements (front_landmarks : LandmarkSet)
    (side_landmarks : LandmarkSet) (user_height_cm : ℚ) :
    Except CalcErr (List (String × ℝ)) := do
  let pixel_to_cm ← calibrate_pixel_to_cm front_landmarks user_height_cm
  let shoulder_width ← calculate_shoulder_width front_landmarks pixel_to_cm
  let left_sleeve_length ← calculate_sleeve_length front_landmarks pixel_to_cm "LEFT"
  let right_sleeve_length ← calculate_sleeve_length front_landmarks pixel_to_cm "RIGHT"
  let inseam ← calculate_inseam front_landmarks pixel_to_cm
  let outseam ← calculate_outseam front_landmarks pixel_to_cm
  let neck ← calculate_neck_circumference front_landmarks side_landmarks pixel_to_cm
  let chest ← calculate_chest_circumference front_landmarks side_landmarks pixel_to_cm
  let waist ← calculate_waist_circumference front_landmarks side_landmarks pixel_to_cm
  let hip ← calculate_hip_circumference front_landmarks side_landmarks pixel_to_cm
  let left_bicep ← calculate_bicep_circumference front_landmarks side_landmarks pixel_to_cm "LEFT"
  let right_bicep ← calculate_bicep_circumference front_landmarks side_landmarks pixel_to_cm "RIGHT"
  let left_thigh ← calculate_thigh_circumference front_landmarks side_landmarks pixel_to_cm "LEFT"
  let right_thigh ← calculate_thigh_circumference front_landmarks side_landmarks pixel_to_cm "RIGHT"
  return [("height", (user_height_cm : ℝ)),
    ("shoulder_width", shoulder_width),
    ("left_sleeve_length", left_sleeve_length),
    ("right_sleeve_length", right_sleeve_length),
    ("inseam", inseam),
    ("outseam", outseam),
    ("neck_circumference", neck),
    ("chest_circumference", chest),
    ("waist_circumference", waist),
    ("hip_circumference", hip),
    ("left_bicep_circumference", left_bicep),
    ("right_bicep_circumference", right_bicep),
    ("left_thigh_circumference", left_thigh),
    ("right_thigh_circumference", right_thigh)]

end

/-! Shared helper lemmas. -/

theorem except_ok_bind {α β : Type} (a : α) (f : α → Except CalcErr β) :
    (Except.ok a : Except CalcErr α) >>= f = f a := rfl

theorem except_error_bind {α β : Type} (e : CalcErr) (f : α → Except CalcErr β) :
    (Except.error e : Except CalcErr α) >>= f = Except.error e := rfl

theorem yCoordinates_ne_nil {lms : LandmarkSet} (h : lms ≠ []) :
    yCoordinates lms ≠ [] := by
  intro hc
  exact h (List.map_eq_nil_iff.mp hc)

theorem euclidean_distance_self (p : Point) : euclidean_distance p p = 0 := by
  unfold euclidean_distance
  simp

/-- C9: the Euclidean distance is symmetric, never negative, and vanishes
exactly on equal points. -/
theorem euclidean_distance_metric_properties (p1 p2 : Point) :
    euclidean_distance p1 p2 = euclidean_distance p2 p1 ∧
    0 ≤ euclidean_distance p1 p2 ∧
    (euclidean_distance p1 p2 = 0 ↔ p1 = p2) ∧
    euclidean_distance p1 p1 = 0 := by
  refine ⟨?_, Real.sqrt_nonneg _, ⟨?_, ?_⟩, euclidean_distance_self p1⟩
  · unfold euclidean_distance
    congr 1
    ring
  · intro h
    have hx : ((p2.1 : ℝ) - (p1.1 : ℝ)) ^ 2 + ((p2.2 : ℝ) - (p1.2 : ℝ)) ^ 2 ≤ 0 :=
      Real.sqrt_eq_zero'.mp h
    have h1 : ((p2.1 : ℝ) - (p1.1 : ℝ)) ^ 2 = 0 := by
      nlinarith [sq_nonneg ((p2.1 : ℝ) - (p1.1 : ℝ)), sq_nonneg ((p2.2 : ℝ) - (p1.2 : ℝ))]
    have h2 : ((p2.2 : ℝ) - (p1.2 : ℝ)) ^ 2 = 0 := by
      nlinarith [sq_nonneg ((p2.1 : ℝ) - (p1.1 : ℝ)), sq_nonneg ((p2.2 : ℝ) - (p1.2 : ℝ))]
    have e1 : (p1.1 : ℝ) = (p2.1 : ℝ) := by
      have := sq_eq_zero_iff.mp h1
      linarith
    have e2 : (p1.2 : ℝ) = (p2.2 : ℝ) := by
      have := sq_eq_zero_iff.mp h2
      linarith
    have e1' : p1.1 = p2.1 := by exact_mod_cast e1
    have e2' : p1.2 = p2.2 := by exact_mod_cast e2
    exact Prod.ext e1' e2'
  · rintro rfl
    exact euclidean_distance_self p1

/-- C1: on a non-empty front LandmarkSet with positive declared height and
positive pixel extent, `calibrate_pixel_to_cm` returns exactly the height
divided by the extent of the y coordinates of all landmark values. -/
theorem calibrate_returns_height_over_pixel_extent (front : LandmarkSet) (h : ℚ)
    (hne : front ≠ []) (hh : 0 < h)
    (hp : 0 < listMax (yCoordinates front) - listMin (yCoordinates front)) :
    calibrate_pixel_to_cm front h =
      Except.ok (h / (listMax (yCoordinates front) - listMin (yCoordinates front))) := by
  simp only [calibrate_pixel_to_cm]
  rw [if_neg hne, if_neg (not_le.mpr hh), if_neg (yCoordinates_ne_nil hne),
    if_neg (not_le.mpr hp)]

/-- C1 witness at a concrete input. -/
theorem calibrate_returns_height_over_pixel_extent_witness :
    calibrate_pixel_to_cm [("NOSE", (50, 10)), ("LEFT_ANKLE", (50, 1000))] 180 =
      Except.ok (180 /
        (listMax (yCoordinates [("NOSE", (50, 10)), ("LEFT_ANKLE", (50, 1000))]) -
          listMin (yCoordinates [("NOSE", (50, 10)), ("LEFT_ANKLE", (50, 1000))]))) :=
  calibrate_returns_height_over_pixel_extent _ 180 (by decide) (by decide)
    (by norm_num [yCoordinates, listMax, listMin, List.foldl])

/-- C4: calibration fails exactly when the front LandmarkSet is empty, the
declared height is non-positive, or the derived pixel extent is non-positive;
every error it produces is one of the three invalid-input errors and never a
missing-landmark (`keyError`) error. -/
theorem calibrate_invalid_input_iff (front : LandmarkSet) (h : ℚ) :
    ((∃ e, calibrate_pixel_to_cm front h = Except.error e) ↔
      (front = [] ∨ h ≤ 0 ∨
        listMax (yCoordinates front) - listMin (yCoordinates front) ≤ 0)) ∧
    (∀ e, calibrate_pixel_to_cm front h = Except.error e →
      (e = CalcErr.emptyLandmarks ∨ e = CalcErr.invalidHeight ∨
        e = CalcErr.invalidHeightInPixels) ∧ ∀ n, e ≠ CalcErr.keyError n) := by
  by_cases h1 : front = []
  · have hc : calibrate_pixel_to_cm front h = Except.error CalcErr.emptyLandmarks := by
      simp only [calibrate_pixel_to_cm, if_pos h1]
    refine ⟨⟨fun _ => Or.inl h1, fun _ => ⟨CalcErr.emptyLandmarks, hc⟩⟩, ?_⟩
    intro e he
    rw [hc] at he
    injection he with he
    subst he
    exact ⟨Or.inl rfl, fun n hn => CalcErr.noConfusion hn⟩
  · by_cases h2 : h ≤ 0
    · have hc : calibrate_pixel_to_cm front h = Except.error CalcErr.invalidHeight := by
        simp only [calibrate_pixel_to_cm, if_neg h1, if_pos h2]
      refine ⟨⟨fun _ => Or.inr (Or.inl h2), fun _ => ⟨CalcErr.invalidHeight, hc⟩⟩, ?_⟩
      intro e he
      rw [hc] at he
      injection he with he
      subst he
      exact ⟨Or.inr (Or.inl rfl), fun n hn => CalcErr.noConfusion hn⟩
    · by_cases h3 : listMax (yCoordinates front) - listMin (yCoordinates front) ≤ 0
      · have hc : calibrate_pixel_to_cm front h =
            Except.error CalcErr.invalidHeightInPixels := by
          simp only [calibrate_pixel_to_cm, if_neg h1, if_neg h2,
            if_neg (yCoordinates_ne_nil h1), if_pos h3]
        refine ⟨⟨fun _ => Or.inr (Or.inr h3), fun _ =>
          ⟨CalcErr.invalidHeightInPixels, hc⟩⟩, ?_⟩
        intro e he
        rw [hc] at he
        injection he with he
        subst he
        exact ⟨Or.inr (Or.inr rfl), fun n hn => CalcErr.noConfusion hn⟩
      · have hc : calibrate_pixel_to_cm front h =
            Except.ok (h / (listMax (yCoordinates front) - listMin (yCoordinates front))) := by
          simp only [calibrate_pixel_to_cm, if_neg h1, if_neg h2,
            if_neg (yCoordinates_ne_nil h1), if_neg h3]
        constructor
        · constructor
          · rintro ⟨e, he⟩
            rw [hc] at he
            exact Except.noConfusion he
          · rintro (hx | hx | hx)
            · exact absurd hx h1
            · exact absurd hx h2
            · exact absurd hx h3
        · intro e he
          rw [hc] at he
          exact Except.noConfusion he

/-- C4 witness at a concrete input: the empty LandmarkSet makes calibration
fail. -/
theorem calibrate_invalid_input_iff_witness :
    ∃ e, calibrate_pixel_to_cm [] 170 = Except.error e :=
  (calibrate_invalid_input_iff [] 170).1.mpr (Or.inl rfl)

/-- C6 counterexample: at `r = 0` the ellipse circumference function does not
return `2 * pi * r = 0`; it raises the division-by-zero error instead, because
it evaluates `(a - b) ^ 2 / (a + b) ^ 2` with denominator zero. -/
theorem ramanujan_circle_zero_counterexample :
    ramanujan_ellipse_circumference 0 0 = Except.error CalcErr.zeroDivision := by
  unfold ramanujan_ellipse_circumference
  rw [if_pos (by norm_num)]

/-- C6 (amended): for every strictly positive `r`, the ellipse circumference
function at `a = b = r` returns exactly `2 * pi * r`. -/
theorem ramanujan_circle_exact (r : ℝ) (hr : 0 < r) :
    ramanujan_ellipse_circumference r r = Except.ok (2 * Real.pi * r) := by
  unfold ramanujan_ellipse_circumference
  rw [if_neg (pow_ne_zero 2 (by linarith : r + r ≠ 0))]
  have h3 : (3 * r + r) * (r + 3 * r) = (4 * r) ^ 2 := by ring
  rw [h3, Real.sqrt_sq (by linarith : (0 : ℝ) ≤ 4 * r)]
  congr 1
  ring

/-- C6 witness: the circle of radius 1. -/
theorem ramanujan_circle_exact_witness :
    ramanujan_ellipse_circumference 1 1 = Except.ok (2 * Real.pi * 1) :=
  ramanujan_circle_exact 1 (by norm_num)

/-- C10: with both semi-axes summing to zero the ellipse circumference
function raises the division-by-zero error instead of returning a value
(the unused intermediate `(a - b) ^ 2 / (a + b) ^ 2` divides by zero), and a
circumference function such as the bicep one reaches that state when the two
landmarks defining its width and depth coincide. -/
theorem ramanujan_zero_axes_division_error :
    (∀ a b : ℝ, a + b = 0 →
      ramanujan_ellipse_circumference a b = Except.error CalcErr.zeroDivision) ∧
    (∀ (front side_lms : LandmarkSet) (c : ℚ) (p q : Point),
      front.lookup "LEFT_SHOULDER" = some p →
      front.lookup "LEFT_ELBOW" = some p →
      side_lms.lookup "LEFT_SHOULDER" = some q →
      side_lms.lookup "LEFT_ELBOW" = some q →
      calculate_bicep_circumference front side_lms c "LEFT" =
        Except.error CalcErr.zeroDivision) := by
  have part1 : ∀ a b : ℝ, a + b = 0 →
      ramanujan_ellipse_circumference a b = Except.error CalcErr.zeroDivision := by
    intro a b hab
    unfold ramanujan_ellipse_circumference
    rw [if_pos (by rw [hab]; norm_num)]
  refine ⟨part1, ?_⟩
  intro front side_lms c p q h1 h2 h3 h4
  unfold calculate_bicep_circumference
  rw [show ("LEFT" ++ "_SHOULDER" : String) = "LEFT_SHOULDER" from rfl,
    show ("LEFT" ++ "_ELBOW" : String) = "LEFT_ELBOW" from rfl]
  simp only [dictGet, h1, h2, h3, h4, except_ok_bind]
  rw [euclidean_distance_self p, euclidean_distance_self q]
  apply part1
  ring

theorem ramanujan_ok_iff (a b v : ℝ) :
    ramanujan_ellipse_circumference a b = Except.ok v ↔
      (a + b) ^ 2 ≠ 0 ∧
      v = Real.pi * (3 * (a + b) - Real.sqrt ((3 * a + b) * (a + 3 * b))) := by
  unfold ramanujan_ellipse_circumference
  by_cases h : (a + b) ^ 2 = 0
  · rw [if_pos h]
    simp [h]
  · rw [if_neg h]
    constructor
    · intro hv
      injection hv with hv
      exact ⟨h, hv.symm⟩
    · rintro ⟨-, rfl⟩
      rfl

theorem ramanujan_formula_mono {a1 a2 b : ℝ} (ha1 : 0 ≤ a1) (h12 : a1 ≤ a2)
    (hb : 0 ≤ b) :
    Real.pi * (3 * (a1 + b) - Real.sqrt ((3 * a1 + b) * (a1 + 3 * b))) ≤
      Real.pi * (3 * (a2 + b) - Real.sqrt ((3 * a2 + b) * (a2 + 3 * b))) := by
  have hG1nn : (0 : ℝ) ≤ (3 * a1 + b) * (a1 + 3 * b) :=
    mul_nonneg (by linarith) (by linarith)
  have hs2 : Real.sqrt ((3 * a1 + b) * (a1 + 3 * b)) ^ 2 = (3 * a1 + b) * (a1 + 3 * b) :=
    Real.sq_sqrt hG1nn
  set s := Real.sqrt ((3 * a1 + b) * (a1 + 3 * b)) with hs
  have hs0 : 0 ≤ s := Real.sqrt_nonneg _
  have hlow : a1 + 5 * b / 3 ≤ s := by
    rw [hs, Real.le_sqrt (by linarith) hG1nn]
    nlinarith [sq_nonneg a1, sq_nonneg b, mul_nonneg ha1 hb]
  have hkey : Real.sqrt ((3 * a2 + b) * (a2 + 3 * b)) ≤ s + 3 * (a2 - a1) := by
    have hG2le : (3 * a2 + b) * (a2 + 3 * b) ≤ (s + 3 * (a2 - a1)) ^ 2 := by
      nlinarith [mul_nonneg (sub_nonneg.mpr h12) (sub_nonneg.mpr hlow), hs2,
        sq_nonneg (a2 - a1)]
    calc Real.sqrt ((3 * a2 + b) * (a2 + 3 * b))
        ≤ Real.sqrt ((s + 3 * (a2 - a1)) ^ 2) := Real.sqrt_le_sqrt hG2le
      _ = s + 3 * (a2 - a1) := Real.sqrt_sq (by nlinarith)
  have hfin : 3 * (a1 + b) - s ≤
      3 * (a2 + b) - Real.sqrt ((3 * a2 + b) * (a2 + 3 * b)) := by linarith
  exact mul_le_mul_of_nonneg_left hfin Real.pi_nonneg

/-- C7: whenever the ellipse circumference function returns values at
non-negative semi-axes, the value is non-decreasing in the first semi-axis
with the second fixed, and non-decreasing in the second with the first
fixed. -/
theorem ramanujan_monotone :
    (∀ a1 a2 b v1 v2 : ℝ, 0 ≤ a1 → a1 ≤ a2 → 0 ≤ b →
      ramanujan_ellipse_circumference a1 b = Except.ok v1 →
      ramanujan_ellipse_circumference a2 b = Except.ok v2 → v1 ≤ v2) ∧
    (∀ a b1 b2 v1 v2 : ℝ, 0 ≤ a → 0 ≤ b1 → b1 ≤ b2 →
      ramanujan_ellipse_circumference a b1 = Except.ok v1 →
      ramanujan_ellipse_circumference a b2 = Except.ok v2 → v1 ≤ v2) := by
  have comm : ∀ a b : ℝ,
      ramanujan_ellipse_circumference a b = ramanujan_ellipse_circumference b a := by
    intro a b
    unfold ramanujan_ellipse_circumference
    have e1 : (a + b) ^ 2 = (b + a) ^ 2 := by ring
    have e2 : (3 * a + b) * (a + 3 * b) = (3 * b + a) * (b + 3 * a) := by ring
    simp only [e1, e2, add_comm a b]
  have mono1 : ∀ a1 a2 b v1 v2 : ℝ, 0 ≤ a1 → a1 ≤ a2 → 0 ≤ b →
      ramanujan_ellipse_circumference a1 b = Except.ok v1 →
      ramanujan_ellipse_circumference a2 b = Except.ok v2 → v1 ≤ v2 := by
    intro a1 a2 b v1 v2 ha1 h12 hb hv1 hv2
    obtain ⟨-, rfl⟩ := (ramanujan_ok_iff _ _ _).mp hv1
    obtain ⟨-, rfl⟩ := (ramanujan_ok_iff _ _ _).mp hv2
    exact ramanujan_formula_mono ha1 h12 hb
  refine ⟨mono1, ?_⟩
  intro a b1 b2 v1 v2 ha hb1 h12 hv1 hv2
  rw [comm] at hv1 hv2
  exact mono1 b1 b2 a v1 v2 hb1 h12 ha hv1 hv2

/-- C7 witness: semi-axes (0, 1) against (1, 1). -/
theorem ramanujan_monotone_witness :
    Real.pi * (3 * ((0 : ℝ) + 1) - Real.sqrt ((3 * 0 + 1) * (0 + 3 * 1))) ≤
      Real.pi * (3 * ((1 : ℝ) + 1) - Real.sqrt ((3 * 1 + 1) * (1 + 3 * 1))) :=
  ramanujan_monotone.1 0 1 1 _ _ le_rfl (by norm_num) (by norm_num)
    (by unfold ramanujan_ellipse_circumference; rw [if_neg (by norm_num)])
    (by unfold ramanujan_ellipse_circumference; rw [if_neg (by norm_num)])

/-- C10 witness: concrete landmark sets whose shoulder and elbow coincide. -/
theorem ramanujan_zero_axes_division_error_witness :
    calculate_bicep_circumference [("LEFT_SHOULDER", (5, 5)), ("LEFT_ELBOW", (5, 5))]
      [("LEFT_SHOULDER", (7, 7)), ("LEFT_ELBOW", (7, 7))] 1 "LEFT" =
      Except.error CalcErr.zeroDivision :=
  ramanujan_zero_axes_division_error.2 _ _ 1 (5, 5) (7, 7) rfl rfl rfl rfl

/-- C8: the inseam is the scale times the average of the distances from the
synthesized crotch point (x the mean of the hip xs, y the larger hip y) to
the two ankles. -/
theorem inseam_crotch_average (front : LandmarkSet) (c : ℚ)
    (lh rh la ra : Point)
    (h1 : front.lookup "LEFT_HIP" = some lh)
    (h2 : front.lookup "RIGHT_HIP" = some rh)
    (h3 : front.lookup "LEFT_ANKLE" = some la)
    (h4 : front.lookup "RIGHT_ANKLE" = some ra) :
    calculate_inseam front c =
      Except.ok ((c : ℝ) *
        ((euclidean_distance ((lh.1 + rh.1) / 2, max lh.2 rh.2) la +
          euclidean_distance ((lh.1 + rh.1) / 2, max lh.2 rh.2) ra) / 2)) := by
  unfold calculate_inseam
  simp only [dictGet, h1, h2, h3, h4, except_ok_bind]
  congr 1
  ring

/-- C8 witness at concrete landmarks. -/
theorem inseam_crotch_average_witness :
    calculate_inseam [("LEFT_HIP", (0, 0)), ("RIGHT_HIP", (2, 1)),
      ("LEFT_ANKLE", (1, 5)), ("RIGHT_ANKLE", (1, 5))] 2 =
      Except.ok (((2 : ℚ) : ℝ) *
        ((euclidean_distance (((0 : ℚ) + 2) / 2, max (0 : ℚ) 1) (1, 5) +
          euclidean_distance (((0 : ℚ) + 2) / 2, max (0 : ℚ) 1) (1, 5)) / 2)) :=
  inseam_crotch_average _ 2 (0, 0) (2, 1) (1, 5) (1, 5) rfl rfl rfl rfl

/-- The chest depth as the spec describes it: the x-range of the side-view
landmarks whose y is within the tolerance band around the mean side shoulder
y (tolerance 0.2 times the vertical side shoulder-hip gap), with the side
shoulder x-spread as fallback for an empty band.  Stated from the spec text
and compared with the source definition in the C3 theorem. -/
def spec_chestDepth (side_lms : LandmarkSet) (lss rss lhs : Point) : ℚ :=
  let target := (lss.2 + rss.2) / 2
  let tol := |lss.2 - lhs.2| * (2 / 10)
  let band := (side_lms.filter (fun kv => decide (|kv.2.2 - target| < tol))).map
    (fun kv => kv.2.1)
  if band ≠ [] then listMax band - listMin band else |lss.1 - rss.1|

/-- C3: the chest circumference is the ellipse approximation applied to a
width of 1.10 times the front shoulder distance and the band-search depth
with shoulder x-spread fallback. -/
theorem chest_circumference_band_depth (front side_lms : LandmarkSet) (c : ℚ)
    (ls rs lss rss lhs : Point)
    (h1 : front.lookup "LEFT_SHOULDER" = some ls)
    (h2 : front.lookup "RIGHT_SHOULDER" = some rs)
    (h3 : side_lms.lookup "LEFT_SHOULDER" = some lss)
    (h4 : side_lms.lookup "RIGHT_SHOULDER" = some rss)
    (h5 : side_lms.lookup "LEFT_HIP" = some lhs) :
    calculate_chest_circumference front side_lms c =
      ramanujan_ellipse_circumference
        ((euclidean_distance ls rs * (11 / 10) / 2) * (c : ℝ))
        (((spec_chestDepth side_lms lss rss lhs : ℚ) : ℝ) / 2 * (c : ℝ)) := by
  unfold calculate_chest_circumference spec_chestDepth
  simp only [dictGet, h1, h2, h3, h4, h5, except_ok_bind]

/-- C3 witness at concrete landmarks. -/
theorem chest_circumference_band_depth_witness :
    calculate_chest_circumference
      [("LEFT_SHOULDER", (0, 0)), ("RIGHT_SHOULDER", (4, 0))]
      [("LEFT_SHOULDER", (0, 0)), ("RIGHT_SHOULDER", (2, 0)), ("LEFT_HIP", (1, 10))] 1 =
      ramanujan_ellipse_circumference
        ((euclidean_distance (0, 0) (4, 0) * (11 / 10) / 2) * ((1 : ℚ) : ℝ))
        (((spec_chestDepth
            [("LEFT_SHOULDER", (0, 0)), ("RIGHT_SHOULDER", (2, 0)), ("LEFT_HIP", (1, 10))]
            (0, 0) (2, 0) (1, 10) : ℚ) : ℝ) / 2 * ((1 : ℚ) : ℝ)) :=
  chest_circumference_band_depth _ _ 1 (0, 0) (4, 0) (0, 0) (2, 0) (1, 10)
    rfl rfl rfl rfl rfl

/-- First error in a list of sub-computation results. -/
def firstErrorIn : List (Except CalcErr ℝ) → Option CalcErr
  | [] => none
  | Except.error e :: _ => some e
  | Except.ok _ :: rest => firstErrorIn rest

/-- The sub-computations of `calculate_all_measurements` after calibration,
in the evaluation order of the result dict literal. -/
noncomputable def measurerResults (front side_lms : LandmarkSet) (c : ℚ) :
    List (Except CalcErr ℝ) :=
  [calculate_shoulder_width front c,
    calculate_sleeve_length front c "LEFT",
    calculate_sleeve_length front c "RIGHT",
    calculate_inseam front c,
    calculate_outseam front c,
    calculate_neck_circumference front side_lms c,
    calculate_chest_circumference front side_lms c,
    calculate_waist_circumference front side_lms c,
    calculate_hip_circumference front side_lms c,
    calculate_bicep_circumference front side_lms c "LEFT",
    calculate_bicep_circumference front side_lms c "RIGHT",
    calculate_thigh_circumference front side_lms c "LEFT",
    calculate_thigh_circumference front side_lms c "RIGHT"]

/-- Spec-side description of the orchestrator failure: the error of the
calibration if it fails, otherwise the first error among the measurement
sub-computations in evaluation order. -/
noncomputable def orchestratorFirstError (front side_lms : LandmarkSet)
    (h : ℚ) : Option CalcErr :=
  match calibrate_pixel_to_cm front h with
  | Except.error e => some e
  | Except.ok c => firstErrorIn (measurerResults front side_lms c)

/-- The fixed key vocabulary of a MeasurementSet, in source order. -/
def measurementKeys : List String :=
  ["height", "shoulder_width", "left_sleeve_length", "right_sleeve_length",
    "inseam", "outseam", "neck_circumference", "chest_circumference",
    "waist_circumference", "hip_circumference", "left_bicep_circumference",
    "right_bicep_circumference", "left_thigh_circumference",
    "right_thigh_circumference"]

/-- C2: the orchestrator either returns a mapping with exactly the fixed
fourteen keys whose height entry is the input height, or fails with the
first error raised by calibration or a measurement sub-computation, with no
partial mapping. -/
theorem calculate_all_measurements_keys_or_first_error
    (front side_lms : LandmarkSet) (h : ℚ) :
    (∃ m, calculate_all_measurements front side_lms h = Except.ok m ∧
      m.map Prod.fst = measurementKeys ∧ m.lookup "height" = some ((h : ℚ) : ℝ)) ∨
    (∃ e, calculate_all_measurements front side_lms h = Except.error e ∧
      orchestratorFirstError front side_lms h = some e) := by
  unfold calculate_all_measurements orchestratorFirstError
  cases h0 : calibrate_pixel_to_cm front h with
  | error e => exact Or.inr ⟨e, rfl, rfl⟩
  | ok c =>
    simp only [except_ok_bind]
    cases h1 : calculate_shoulder_width front c with
    | error e =>
      exact Or.inr ⟨e, rfl, by simp only [measurerResults, firstErrorIn, h1]⟩
    | ok v1 =>
    simp only [except_ok_bind]
    cases h2 : calculate_sleeve_length front c "LEFT" with
    | error e =>
      exact Or.inr ⟨e, rfl, by simp only [measurerResults, firstErrorIn, h1, h2]⟩
    | ok v2 =>
    simp only [except_ok_bind]
    cases h3 : calculate_sleeve_length front c "RIGHT" with
    | error e =>
      exact Or.inr ⟨e, rfl, by simp only [measurerResults, firstErrorIn, h1, h2, h3]⟩
    | ok v3 =>
    simp only [except_ok_bind]
    cases h4 : calculate_inseam front c with
    | error e =>
      exact Or.inr ⟨e, rfl, by simp only [measurerResults, firstErrorIn, h1, h2, h3, h4]⟩
    | ok v4 =>
    simp only [except_ok_bind]
    cases h5 : calculate_outseam front c with
    | error e =>
      exact Or.inr ⟨e, rfl,
        by simp only [measurerResults, firstErrorIn, h1, h2, h3, h4, h5]⟩
    | ok v5 =>
    simp only [except_ok_bind]
    cases h6 : calculate_neck_circumference front side_lms c with
    | error e =>
      exact Or.inr ⟨e, rfl,
        by simp only [measurerResults, firstErrorIn, h1, h2, h3, h4, h5, h6]⟩
    | ok v6 =>
    simp only [except_ok_bind]
    cases h7 : calculate_chest_circumference front side_lms c with
    | error e =>
      exact Or.inr ⟨e, rfl,
        by simp only [measurerResults, firstErrorIn, h1, h2, h3, h4, h5, h6, h7]⟩
    | ok v7 =>
    simp only [except_ok_bind]
    cases h8 : calculate_waist_circumference front side_lms c with
    | error e =>
      exact Or.inr ⟨e, rfl,
        by simp only [measurerResults, firstErrorIn, h1, h2, h3, h4, h5, h6, h7, h8]⟩
    | ok v8 =>
    simp only [except_ok_bind]
    cases h9 : calculate_hip_circumference front side_lms c with
    | error e =>
      exact Or.inr ⟨e, rfl,
        by simp only [measurerResults, firstErrorIn, h1, h2, h3, h4, h5, h6, h7, h8, h9]⟩
    | ok v9 =>
    simp only [except_ok_bind]
    cases h10 : calculate_bicep_circumference front side_lms c "LEFT" with
    | error e =>
      exact Or.inr ⟨e, rfl,
        by simp only [measurerResults, firstErrorIn, h1, h2, h3, h4, h5, h6, h7, h8, h9, h10]⟩
    | ok v10 =>
    simp only [except_ok_bind]
    cases h11 : calculate_bicep_circumference front side_lms c "RIGHT" with
    | error e =>
      exact Or.inr ⟨e, rfl,
        by simp only [measurerResults, firstErrorIn, h1, h2, h3, h4, h5, h6, h7, h8, h9,
          h10, h11]⟩
    | ok v11 =>
    simp only [except_ok_bind]
    cases h12 : calculate_thigh_circumference front side_lms c "LEFT" with
    | error e =>
      exact Or.inr ⟨e, rfl,
        by simp only [measurerResults, firstErrorIn, h1, h2, h3, h4, h5, h6, h7, h8, h9,
          h10, h11, h12]⟩
    | ok v12 =>
    simp only [except_ok_bind]
    cases h13 : calculate_thigh_circumference front side_lms c "RIGHT" with
    | error e =>
      exact Or.inr ⟨e, rfl,
        by simp only [measurerResults, firstErrorIn, h1, h2, h3, h4, h5, h6, h7, h8, h9,
          h10, h11, h12, h13]⟩
    | ok v13 =>
    simp only [except_ok_bind]
    exact Or.inl ⟨_, rfl, rfl, rfl⟩

/-! C5 infrastructure: removing one landmark name from a LandmarkSet. -/

/-- Removing an anatomical name from a LandmarkSet (deleting the key from the
Python dict). -/
def removeKey (lms : LandmarkSet) (k : String) : LandmarkSet :=
  lms.filter (fun kv => kv.1 != k)

theorem lookup_cons_ne {k a : String} {b : Point} {es : LandmarkSet}
    (h : a ≠ k) : ((k, b) :: es).lookup a = es.lookup a := by
  rw [List.lookup_cons]
  rw [show (a == k) = false from beq_eq_false_iff_ne.mpr h]

theorem lookup_removeKey_self (lms : LandmarkSet) (k : String) :
    (removeKey lms k).lookup k = none := by
  induction lms with
  | nil => rfl
  | cons kv rest ih =>
    obtain ⟨k1, v1⟩ := kv
    by_cases hk : k1 = k
    · subst hk
      simpa only [removeKey, List.filter_cons, bne_self_eq_false, Bool.false_eq_true,
        if_false] using ih
    · have hb : ((k1, v1).1 != k) = true := by
        simp only [bne_iff_ne, ne_eq]
        exact hk
      simp only [removeKey, List.filter_cons, hb, if_true]
      rw [lookup_cons_ne (Ne.symm hk)]
      exact ih

theorem lookup_removeKey_ne (lms : LandmarkSet) (k m : String) (h : m ≠ k) :
    (removeKey lms k).lookup m = lms.lookup m := by
  induction lms with
  | nil => rfl
  | cons kv rest ih =>
    obtain ⟨k1, v1⟩ := kv
    by_cases hk : k1 = k
    · subst hk
      simp only [removeKey, List.filter_cons, bne_self_eq_false, Bool.false_eq_true,
        if_false]
      rw [lookup_cons_ne h]
      exact ih
    · have hb : ((k1, v1).1 != k) = true := by
        simp only [bne_iff_ne, ne_eq]
        exact hk
      simp only [removeKey, List.filter_cons, hb, if_true]
      by_cases hm : m = k1
      · subst hm
        rw [List.lookup_cons_self, List.lookup_cons_self]
      · rw [lookup_cons_ne hm, lookup_cons_ne hm]
        exact ih

theorem dictGet_removeKey_self (lms : LandmarkSet) (k : String) :
    dictGet (removeKey lms k) k = Except.error (CalcErr.keyError k) := by
  unfold dictGet
  rw [lookup_removeKey_self]

theorem dictGet_removeKey_ne (lms : LandmarkSet) (k m : String) (h : m ≠ k) :
    dictGet (removeKey lms k) m = dictGet lms m := by
  unfold dictGet
  rw [lookup_removeKey_ne _ _ _ h]

/-- The LandmarkSet provides every name in the list. -/
abbrev hasKeys (lms : LandmarkSet) (names : List String) : Prop :=
  ∀ n ∈ names, (lms.lookup n).isSome = true

theorem hasKeys_dictGet {lms : LandmarkSet} {names : List String} {m : String}
    (h : hasKeys lms names) (hm : m ∈ names) :
    ∃ p, dictGet lms m = Except.ok p := by
  obtain ⟨p, hp⟩ := Option.isSome_iff_exists.mp (h m hm)
  refine ⟨p, ?_⟩
  unfold dictGet
  rw [hp]

theorem missing_shoulder_width (front : LandmarkSet) (c : ℚ) (n : String)
    (hf : hasKeys front ["LEFT_SHOULDER", "RIGHT_SHOULDER"])
    (hn : n ∈ ["LEFT_SHOULDER", "RIGHT_SHOULDER"]) :
    calculate_shoulder_width (removeKey front n) c =
      Except.error (CalcErr.keyError n) := by
  obtain ⟨p1, hp1⟩ := hasKeys_dictGet hf (show "LEFT_SHOULDER" ∈ _ by simp)
  simp only [List.mem_cons, List.not_mem_nil, or_false] at hn
  unfold calculate_shoulder_width
  rcases hn with rfl | rfl
  · simp only [dictGet_removeKey_self, except_error_bind]
  · simp only [dictGet_removeKey_ne front "RIGHT_SHOULDER" "LEFT_SHOULDER" (by decide),
      hp1, except_ok_bind, dictGet_removeKey_self, except_error_bind]

theorem missing_sleeve_length (front : LandmarkSet) (c : ℚ) (side n : String)
    (hside : side = "LEFT" ∨ side = "RIGHT")
    (hf : hasKeys front [side ++ "_SHOULDER", side ++ "_ELBOW", side ++ "_WRIST"])
    (hn : n ∈ [side ++ "_SHOULDER", side ++ "_ELBOW", side ++ "_WRIST"]) :
    calculate_sleeve_length (removeKey front n) c side =
      Except.error (CalcErr.keyError n) := by
  rcases hside with rfl | rfl
  · rw [show ("LEFT" ++ "_SHOULDER" : String) = "LEFT_SHOULDER" from rfl,
      show ("LEFT" ++ "_ELBOW" : String) = "LEFT_ELBOW" from rfl,
      show ("LEFT" ++ "_WRIST" : String) = "LEFT_WRIST" from rfl] at hf hn
    obtain ⟨p1, hp1⟩ := hasKeys_dictGet hf (show "LEFT_SHOULDER" ∈ _ by simp)
    obtain ⟨p2, hp2⟩ := hasKeys_dictGet hf (show "LEFT_ELBOW" ∈ _ by simp)
    simp only [List.mem_cons, List.not_mem_nil, or_false] at hn
    unfold calculate_sleeve_length
    rw [show ("LEFT" ++ "_SHOULDER" : String) = "LEFT_SHOULDER" from rfl,
      show ("LEFT" ++ "_ELBOW" : String) = "LEFT_ELBOW" from rfl,
      show ("LEFT" ++ "_WRIST" : String) = "LEFT_WRIST" from rfl]
    rcases hn with rfl | rfl | rfl
    · simp only [dictGet_removeKey_self, except_error_bind]
    · simp only [dictGet_removeKey_ne front "LEFT_ELBOW" "LEFT_SHOULDER" (by decide),
        hp1, except_ok_bind, dictGet_removeKey_self, except_error_bind]
    · simp only [dictGet_removeKey_ne front "LEFT_WRIST" "LEFT_SHOULDER" (by decide),
        dictGet_removeKey_ne front "LEFT_WRIST" "LEFT_ELBOW" (by decide),
        hp1, hp2, except_ok_bind, dictGet_removeKey_self, except_error_bind]
  · rw [show ("RIGHT" ++ "_SHOULDER" : String) = "RIGHT_SHOULDER" from rfl,
      show ("RIGHT" ++ "_ELBOW" : String) = "RIGHT_ELBOW" from rfl,
      show ("RIGHT" ++ "_WRIST" : String) = "RIGHT_WRIST" from rfl] at hf hn
    obtain ⟨p1, hp1⟩ := hasKeys_dictGet hf (show "RIGHT_SHOULDER" ∈ _ by simp)
    obtain ⟨p2, hp2⟩ := hasKeys_dictGet hf (show "RIGHT_ELBOW" ∈ _ by simp)
    simp only [List.mem_cons, List.not_mem_nil, or_false] at hn
    unfold calculate_sleeve_length
    rw [show ("RIGHT" ++ "_SHOULDER" : String) = "RIGHT_SHOULDER" from rfl,
      show ("RIGHT" ++ "_ELBOW" : String) = "RIGHT_ELBOW" from rfl,
      show ("RIGHT" ++ "_WRIST" : String) = "RIGHT_WRIST" from rfl]
    rcases hn with rfl | rfl | rfl
    · simp only [dictGet_removeKey_self, except_error_bind]
    · simp only [dictGet_removeKey_ne front "RIGHT_ELBOW" "RIGHT_SHOULDER" (by decide),
        hp1, except_ok_bind, dictGet_removeKey_self, except_error_bind]
    · simp only [dictGet_removeKey_ne front "RIGHT_WRIST" "RIGHT_SHOULDER" (by decide),
        dictGet_removeKey_ne front "RIGHT_WRIST" "RIGHT_ELBOW" (by decide),
        hp1, hp2, except_ok_bind, dictGet_removeKey_self, except_error_bind]

theorem missing_inseam (front : LandmarkSet) (c : ℚ) (n : String)
    (hf : hasKeys front ["LEFT_HIP", "RIGHT_HIP", "LEFT_ANKLE", "RIGHT_ANKLE"])
    (hn : n ∈ ["LEFT_HIP", "RIGHT_HIP", "LEFT_ANKLE", "RIGHT_ANKLE"]) :
    calculate_inseam (removeKey front n) c = Except.error (CalcErr.keyError n) := by
  obtain ⟨p1, hp1⟩ := hasKeys_dictGet hf (show "LEFT_HIP" ∈ _ by simp)
  obtain ⟨p2, hp2⟩ := hasKeys_dictGet hf (show "RIGHT_HIP" ∈ _ by simp)
  obtain ⟨p3, hp3⟩ := hasKeys_dictGet hf (show "LEFT_ANKLE" ∈ _ by simp)
  simp only [List.mem_cons, List.not_mem_nil, or_false] at hn
  unfold calculate_inseam
  rcases hn with rfl | rfl | rfl | rfl
  · simp only [dictGet_removeKey_self, except_error_bind]
  · simp only [dictGet_removeKey_ne front "RIGHT_HIP" "LEFT_HIP" (by decide),
      hp1, except_ok_bind, dictGet_removeKey_self, except_error_bind]
  · simp only [dictGet_removeKey_ne front "LEFT_ANKLE" "LEFT_HIP" (by decide),
      dictGet_removeKey_ne front "LEFT_ANKLE" "RIGHT_HIP" (by decide),
      hp1, hp2, except_ok_bind, dictGet_removeKey_self, except_error_bind]
  · simp only [dictGet_removeKey_ne front "RIGHT_ANKLE" "LEFT_HIP" (by decide),
      dictGet_removeKey_ne front "RIGHT_ANKLE" "RIGHT_HIP" (by decide),
      dictGet_removeKey_ne front "RIGHT_ANKLE" "LEFT_ANKLE" (by decide),
      hp1, hp2, hp3, except_ok_bind, dictGet_removeKey_self, except_error_bind]

theorem missing_outseam (front : LandmarkSet) (c : ℚ) (n : String)
    (hf : hasKeys front ["LEFT_HIP", "RIGHT_HIP", "LEFT_ANKLE", "RIGHT_ANKLE"])
    (hn : n ∈ ["LEFT_HIP", "RIGHT_HIP", "LEFT_ANKLE", "RIGHT_ANKLE"]) :
    calculate_outseam (removeKey front n) c = Except.error (CalcErr.keyError n) := by
  obtain ⟨p1, hp1⟩ := hasKeys_dictGet hf (show "LEFT_HIP" ∈ _ by simp)
  obtain ⟨p2, hp2⟩ := hasKeys_dictGet hf (show "RIGHT_HIP" ∈ _ by simp)
  obtain ⟨p3, hp3⟩ := hasKeys_dictGet hf (show "LEFT_ANKLE" ∈ _ by simp)
  simp only [List.mem_cons, List.not_mem_nil, or_false] at hn
  unfold calculate_outseam
  rcases hn with rfl | rfl | rfl | rfl
  · simp only [dictGet_removeKey_self, except_error_bind]
  · simp only [dictGet_removeKey_ne front "RIGHT_HIP" "LEFT_HIP" (by decide),
      hp1, except_ok_bind, dictGet_removeKey_self, except_error_bind]
  · simp only [dictGet_removeKey_ne front "LEFT_ANKLE" "LEFT_HIP" (by decide),
      dictGet_removeKey_ne front "LEFT_ANKLE" "RIGHT_HIP" (by decide),
      hp1, hp2, except_ok_bind, dictGet_removeKey_self, except_error_bind]
  · simp only [dictGet_removeKey_ne front "RIGHT_ANKLE" "LEFT_HIP" (by decide),
      dictGet_removeKey_ne front "RIGHT_ANKLE" "RIGHT_HIP" (by decide),
      dictGet_removeKey_ne front "RIGHT_ANKLE" "LEFT_ANKLE" (by decide),
      hp1, hp2, hp3, except_ok_bind, dictGet_removeKey_self, except_error_bind]

theorem missing_neck_front (front side_lms : LandmarkSet) (c : ℚ) (n : String)
    (hf : hasKeys front ["LEFT_SHOULDER", "RIGHT_SHOULDER"])
    (hn : n ∈ ["LEFT_SHOULDER", "RIGHT_SHOULDER"]) :
    calculate_neck_circumference (removeKey front n) side_lms c =
      Except.error (CalcErr.keyError n) := by
  obtain ⟨p1, hp1⟩ := hasKeys_dictGet hf (show "LEFT_SHOULDER" ∈ _ by simp)
  simp only [List.mem_cons, List.not_mem_nil, or_false] at hn
  unfold calculate_neck_circumference
  rcases hn with rfl | rfl
  · simp only [dictGet_removeKey_self, except_error_bind]
  · simp only [dictGet_removeKey_ne front "RIGHT_SHOULDER" "LEFT_SHOULDER" (by decide),
      hp1, except_ok_bind, dictGet_removeKey_self, except_error_bind]

theorem missing_neck_side (front side_lms : LandmarkSet) (c : ℚ) (n : String)
    (hf : hasKeys front ["LEFT_SHOULDER", "RIGHT_SHOULDER"])
    (hs : hasKeys side_lms ["LEFT_SHOULDER", "RIGHT_SHOULDER"])
    (hn : n ∈ ["LEFT_SHOULDER", "RIGHT_SHOULDER"]) :
    calculate_neck_circumference front (removeKey side_lms n) c =
      Except.error (CalcErr.keyError n) := by
  obtain ⟨p1, hp1⟩ := hasKeys_dictGet hf (show "LEFT_SHOULDER" ∈ _ by simp)
  obtain ⟨p2, hp2⟩ := hasKeys_dictGet hf (show "RIGHT_SHOULDER" ∈ _ by simp)
  obtain ⟨q1, hq1⟩ := hasKeys_dictGet hs (show "LEFT_SHOULDER" ∈ _ by simp)
  simp only [List.mem_cons, List.not_mem_nil, or_false] at hn
  unfold calculate_neck_circumference
  rcases hn with rfl | rfl
  · simp only [hp1, hp2, except_ok_bind, dictGet_removeKey_self, except_error_bind]
  · simp only [hp1, hp2, except_ok_bind,
      dictGet_removeKey_ne side_lms "RIGHT_SHOULDER" "LEFT_SHOULDER" (by decide),
      hq1, dictGet_removeKey_self, except_error_bind]

theorem missing_chest_front (front side_lms : LandmarkSet) (c : ℚ) (n : String)
    (hf : hasKeys front ["LEFT_SHOULDER", "RIGHT_SHOULDER"])
    (hn : n ∈ ["LEFT_SHOULDER", "RIGHT_SHOULDER"]) :
    calculate_chest_circumference (removeKey front n) side_lms c =
      Except.error (CalcErr.keyError n) := by
  obtain ⟨p1, hp1⟩ := hasKeys_dictGet hf (show "LEFT_SHOULDER" ∈ _ by simp)
  simp only [List.mem_cons, List.not_mem_nil, or_false] at hn
  unfold calculate_chest_circumference
  rcases hn with rfl | rfl
  · simp only [dictGet_removeKey_self, except_error_bind]
  · simp only [dictGet_removeKey_ne front "RIGHT_SHOULDER" "LEFT_SHOULDER" (by decide),
      hp1, except_ok_bind, dictGet_removeKey_self, except_error_bind]

theorem missing_chest_side (front side_lms : LandmarkSet) (c : ℚ) (n : String)
    (hf : hasKeys front ["LEFT_SHOULDER", "RIGHT_SHOULDER"])
    (hs : hasKeys side_lms ["LEFT_SHOULDER", "RIGHT_SHOULDER", "LEFT_HIP"])
    (hn : n ∈ ["LEFT_SHOULDER", "RIGHT_SHOULDER", "LEFT_HIP"]) :
    calculate_chest_circumference front (removeKey side_lms n) c =
      Except.error (CalcErr.keyError n) := by
  obtain ⟨p1, hp1⟩ := hasKeys_dictGet hf (show "LEFT_SHOULDER" ∈ _ by simp)
  obtain ⟨p2, hp2⟩ := hasKeys_dictGet hf (show "RIGHT_SHOULDER" ∈ _ by simp)
  obtain ⟨q1, hq1⟩ := hasKeys_dictGet hs (show "LEFT_SHOULDER" ∈ _ by simp)
  obtain ⟨q2, hq2⟩ := hasKeys_dictGet hs (show "RIGHT_SHOULDER" ∈ _ by simp)
  simp only [List.mem_cons, List.not_mem_nil, or_false] at hn
  unfold calculate_chest_circumference
  rcases hn with rfl | rfl | rfl
  · simp only [hp1, hp2, except_ok_bind, dictGet_removeKey_self, except_error_bind]
  · simp only [hp1, hp2, except_ok_bind,
      dictGet_removeKey_ne side_lms "RIGHT_SHOULDER" "LEFT_SHOULDER" (by decide),
      hq1, dictGet_removeKey_self, except_error_bind]
  · simp only [hp1, hp2, except_ok_bind,
      dictGet_removeKey_ne side_lms "LEFT_HIP" "LEFT_SHOULDER" (by decide),
      dictGet_removeKey_ne side_lms "LEFT_HIP" "RIGHT_SHOULDER" (by decide),
      hq1, hq2, dictGet_removeKey_self, except_error_bind]

theorem missing_waist_front (front side_lms : LandmarkSet) (c : ℚ) (n : String)
    (hf : hasKeys front ["LEFT_HIP", "RIGHT_HIP"])
    (hn : n ∈ ["LEFT_HIP", "RIGHT_HIP"]) :
    calculate_waist_circumference (removeKey front n) side_lms c =
      Except.error (CalcErr.keyError n) := by
  obtain ⟨p1, hp1⟩ := hasKeys_dictGet hf (show "LEFT_HIP" ∈ _ by simp)
  simp only [List.mem_cons, List.not_mem_nil, or_false] at hn
  unfold calculate_waist_circumference
  rcases hn with rfl | rfl
  · simp only [dictGet_removeKey_self, except_error_bind]
  · simp only [dictGet_removeKey_ne front "RIGHT_HIP" "LEFT_HIP" (by decide),
      hp1, except_ok_bind, dictGet_removeKey_self, except_error_bind]

theorem missing_waist_side (front side_lms : LandmarkSet) (c : ℚ) (n : String)
    (hf : hasKeys front ["LEFT_HIP", "RIGHT_HIP"])
    (hs : hasKeys side_lms ["LEFT_HIP", "RIGHT_HIP", "LEFT_SHOULDER"])
    (hn : n ∈ ["LEFT_HIP", "RIGHT_HIP", "LEFT_SHOULDER"]) :
    calculate_waist_circumference front (removeKey side_lms n) c =
      Except.error (CalcErr.keyError n) := by
  obtain ⟨p1, hp1⟩ := hasKeys_dictGet hf (show "LEFT_HIP" ∈ _ by simp)
  obtain ⟨p2, hp2⟩ := hasKeys_dictGet hf (show "RIGHT_HIP" ∈ _ by simp)
  obtain ⟨q1, hq1⟩ := hasKeys_dictGet hs (show "LEFT_HIP" ∈ _ by simp)
  obtain ⟨q2, hq2⟩ := hasKeys_dictGet hs (show "RIGHT_HIP" ∈ _ by simp)
  simp only [List.mem_cons, List.not_mem_nil, or_false] at hn
  unfold calculate_waist_circumference
  rcases hn with rfl | rfl | rfl
  · simp only [hp1, hp2, except_ok_bind, dictGet_removeKey_self, except_error_bind]
  · simp only [hp1, hp2, except_ok_bind,
      dictGet_removeKey_ne side_lms "RIGHT_HIP" "LEFT_HIP" (by decide),
      hq1, dictGet_removeKey_self, except_error_bind]
  · simp only [hp1, hp2, except_ok_bind,
      dictGet_removeKey_ne side_lms "LEFT_SHOULDER" "LEFT_HIP" (by decide),
      dictGet_removeKey_ne side_lms "LEFT_SHOULDER" "RIGHT_HIP" (by decide),
      hq1, hq2, dictGet_removeKey_self, except_error_bind]

theorem missing_hip_front (front side_lms : LandmarkSet) (c : ℚ) (n : String)
    (hf : hasKeys front ["LEFT_HIP", "RIGHT_HIP"])
    (hn : n ∈ ["LEFT_HIP", "RIGHT_HIP"]) :
    calculate_hip_circumference (removeKey front n) side_lms c =
      Except.error (CalcErr.keyError n) := by
  obtain ⟨p1, hp1⟩ := hasKeys_dictGet hf (show "LEFT_HIP" ∈ _ by simp)
  simp only [List.mem_cons, List.not_mem_nil, or_false] at hn
  unfold calculate_hip_circumference
  rcases hn with rfl | rfl
  · simp only [dictGet_removeKey_self, except_error_bind]
  · simp only [dictGet_removeKey_ne front "RIGHT_HIP" "LEFT_HIP" (by decide),
      hp1, except_ok_bind, dictGet_removeKey_self, except_error_bind]

theorem missing_hip_side (front side_lms : LandmarkSet) (c : ℚ) (n : String)
    (hf : hasKeys front ["LEFT_HIP", "RIGHT_HIP"])
    (hs : hasKeys side_lms ["LEFT_HIP", "RIGHT_HIP", "LEFT_KNEE"])
    (hn : n ∈ ["LEFT_HIP", "RIGHT_HIP", "LEFT_KNEE"]) :
    calculate_hip_circumference front (removeKey side_lms n) c =
      Except.error (CalcErr.keyError n) := by
  obtain ⟨p1, hp1⟩ := hasKeys_dictGet hf (show "LEFT_HIP" ∈ _ by simp)
  obtain ⟨p2, hp2⟩ := hasKeys_dictGet hf (show "RIGHT_HIP" ∈ _ by simp)
  obtain ⟨q1, hq1⟩ := hasKeys_dictGet hs (show "LEFT_HIP" ∈ _ by simp)
  obtain ⟨q2, hq2⟩ := hasKeys_dictGet hs (show "RIGHT_HIP" ∈ _ by simp)
  simp only [List.mem_cons, List.not_mem_nil, or_false] at hn
  unfold calculate_hip_circumference
  rcases hn with rfl | rfl | rfl
  · simp only [hp1, hp2, except_ok_bind, dictGet_removeKey_self, except_error_bind]
  · simp only [hp1, hp2, except_ok_bind,
      dictGet_removeKey_ne side_lms "RIGHT_HIP" "LEFT_HIP" (by decide),
      hq1, dictGet_removeKey_self, except_error_bind]
  · simp only [hp1, hp2, except_ok_bind,
      dictGet_removeKey_ne side_lms "LEFT_KNEE" "LEFT_HIP" (by decide),
      dictGet_removeKey_ne side_lms "LEFT_KNEE" "RIGHT_HIP" (by decide),
      hq1, hq2, dictGet_removeKey_self, except_error_bind]

theorem missing_bicep_front (front side_lms : LandmarkSet) (c : ℚ) (side n : String)
    (hside : side = "LEFT" ∨ side = "RIGHT")
    (hf : hasKeys front [side ++ "_SHOULDER", side ++ "_ELBOW"])
    (hn : n ∈ [side ++ "_SHOULDER", side ++ "_ELBOW"]) :
    calculate_bicep_circumference (removeKey front n) side_lms c side =
      Except.error (CalcErr.keyError n) := by
  rcases hside with rfl | rfl
  · rw [show ("LEFT" ++ "_SHOULDER" : String) = "LEFT_SHOULDER" from rfl,
      show ("LEFT" ++ "_ELBOW" : String) = "LEFT_ELBOW" from rfl] at hf hn
    obtain ⟨p1, hp1⟩ := hasKeys_dictGet hf (show "LEFT_SHOULDER" ∈ _ by simp)
    simp only [List.mem_cons, List.not_mem_nil, or_false] at hn
    unfold calculate_bicep_circumference
    rw [show ("LEFT" ++ "_SHOULDER" : String) = "LEFT_SHOULDER" from rfl,
      show ("LEFT" ++ "_ELBOW" : String) = "LEFT_ELBOW" from rfl]
    rcases hn with rfl | rfl
    · simp only [dictGet_removeKey_self, except_error_bind]
    · simp only [dictGet_removeKey_ne front "LEFT_ELBOW" "LEFT_SHOULDER" (by decide),
        hp1, except_ok_bind, dictGet_removeKey_self, except_error_bind]
  · rw [show ("RIGHT" ++ "_SHOULDER" : String) = "RIGHT_SHOULDER" from rfl,
      show ("RIGHT" ++ "_ELBOW" : String) = "RIGHT_ELBOW" from rfl] at hf hn
    obtain ⟨p1, hp1⟩ := hasKeys_dictGet hf (show "RIGHT_SHOULDER" ∈ _ by simp)
    simp only [List.mem_cons, List.not_mem_nil, or_false] at hn
    unfold calculate_bicep_circumference
    rw [show ("RIGHT" ++ "_SHOULDER" : String) = "RIGHT_SHOULDER" from rfl,
      show ("RIGHT" ++ "_ELBOW" : String) = "RIGHT_ELBOW" from rfl]
    rcases hn with rfl | rfl
    · simp only [dictGet_removeKey_self, except_error_bind]
    · simp only [dictGet_removeKey_ne front "RIGHT_ELBOW" "RIGHT_SHOULDER" (by decide),
        hp1, except_ok_bind, dictGet_removeKey_self, except_error_bind]

theorem missing_bicep_side (front side_lms : LandmarkSet) (c : ℚ) (side n : String)
    (hside : side = "LEFT" ∨ side = "RIGHT")
    (hf : hasKeys front [side ++ "_SHOULDER", side ++ "_ELBOW"])
    (hs : hasKeys side_lms [side ++ "_SHOULDER", side ++ "_ELBOW"])
    (hn : n ∈ [side ++ "_SHOULDER", side ++ "_ELBOW"]) :
    calculate_bicep_circumference front (removeKey side_lms n) c side =
      Except.error (CalcErr.keyError n) := by
  rcases hside with rfl | rfl
  · rw [show ("LEFT" ++ "_SHOULDER" : String) = "LEFT_SHOULDER" from rfl,
      show ("LEFT" ++ "_ELBOW" : String) = "LEFT_ELBOW" from rfl] at hf hs hn
    obtain ⟨p1, hp1⟩ := hasKeys_dictGet hf (show "LEFT_SHOULDER" ∈ _ by simp)
    obtain ⟨p2, hp2⟩ := hasKeys_dictGet hf (show "LEFT_ELBOW" ∈ _ by simp)
    obtain ⟨q1, hq1⟩ := hasKeys_dictGet hs (show "LEFT_SHOULDER" ∈ _ by simp)
    simp only [List.mem_cons, List.not_mem_nil, or_false] at hn
    unfold calculate_bicep_circumference
    rw [show ("LEFT" ++ "_SHOULDER" : String) = "LEFT_SHOULDER" from rfl,
      show ("LEFT" ++ "_ELBOW" : String) = "LEFT_ELBOW" from rfl]
    rcases hn with rfl | rfl
    · simp only [hp1, hp2, except_ok_bind, dictGet_removeKey_self, except_error_bind]
    · simp only [hp1, hp2, except_ok_bind,
        dictGet_removeKey_ne side_lms "LEFT_ELBOW" "LEFT_SHOULDER" (by decide),
        hq1, dictGet_removeKey_self, except_error_bind]
  · rw [show ("RIGHT" ++ "_SHOULDER" : String) = "RIGHT_SHOULDER" from rfl,
      show ("RIGHT" ++ "_ELBOW" : String) = "RIGHT_ELBOW" from rfl] at hf hs hn
    obtain ⟨p1, hp1⟩ := hasKeys_dictGet hf (show "RIGHT_SHOULDER" ∈ _ by simp)
    obtain ⟨p2, hp2⟩ := hasKeys_dictGet hf (show "RIGHT_ELBOW" ∈ _ by simp)
    obtain ⟨q1, hq1⟩ := hasKeys_dictGet hs (show "RIGHT_SHOULDER" ∈ _ by simp)
    simp only [List.mem_cons, List.not_mem_nil, or_false] at hn
    unfold calculate_bicep_circumference
    rw [show ("RIGHT" ++ "_SHOULDER" : String) = "RIGHT_SHOULDER" from rfl,
      show ("RIGHT" ++ "_ELBOW" : String) = "RIGHT_ELBOW" from rfl]
    rcases hn with rfl | rfl
    · simp only [hp1, hp2, except_ok_bind, dictGet_removeKey_self, except_error_bind]
    · simp only [hp1, hp2, except_ok_bind,
        dictGet_removeKey_ne side_lms "RIGHT_ELBOW" "RIGHT_SHOULDER" (by decide),
        hq1, dictGet_removeKey_self, except_error_bind]

theorem missing_thigh_front (front side_lms : LandmarkSet) (c : ℚ) (side n : String)
    (hside : side = "LEFT" ∨ side = "RIGHT")
    (hf : hasKeys front [side ++ "_HIP", side ++ "_KNEE"])
    (hn : n ∈ [side ++ "_HIP", side ++ "_KNEE"]) :
    calculate_thigh_circumference (removeKey front n) side_lms c side =
      Except.error (CalcErr.keyError n) := by
  rcases hside with rfl | rfl
  · rw [show ("LEFT" ++ "_HIP" : String) = "LEFT_HIP" from rfl,
      show ("LEFT" ++ "_KNEE" : String) = "LEFT_KNEE" from rfl] at hf hn
    obtain ⟨p1, hp1⟩ := hasKeys_dictGet hf (show "LEFT_HIP" ∈ _ by simp)
    simp only [List.mem_cons, List.not_mem_nil, or_false] at hn
    unfold calculate_thigh_circumference
    rw [show ("LEFT" ++ "_HIP" : String) = "LEFT_HIP" from rfl,
      show ("LEFT" ++ "_KNEE" : String) = "LEFT_KNEE" from rfl]
    rcases hn with rfl | rfl
    · simp only [dictGet_removeKey_self, except_error_bind]
    · simp only [dictGet_removeKey_ne front "LEFT_KNEE" "LEFT_HIP" (by decide),
        hp1, except_ok_bind, dictGet_removeKey_self, except_error_bind]
  · rw [show ("RIGHT" ++ "_HIP" : String) = "RIGHT_HIP" from rfl,
      show ("RIGHT" ++ "_KNEE" : String) = "RIGHT_KNEE" from rfl] at hf hn
    obtain ⟨p1, hp1⟩ := hasKeys_dictGet hf (show "RIGHT_HIP" ∈ _ by simp)
    simp only [List.mem_cons, List.not_mem_nil, or_false] at hn
    unfold calculate_thigh_circumference
    rw [show ("RIGHT" ++ "_HIP" : String) = "RIGHT_HIP" from rfl,
      show ("RIGHT" ++ "_KNEE" : String) = "RIGHT_KNEE" from rfl]
    rcases hn with rfl | rfl
    · simp only [dictGet_removeKey_self, except_error_bind]
    · simp only [dictGet_removeKey_ne front "RIGHT_KNEE" "RIGHT_HIP" (by decide),
        hp1, except_ok_bind, dictGet_removeKey_self, except_error_bind]

theorem missing_thigh_side (front side_lms : LandmarkSet) (c : ℚ) (side n : String)
    (hside : side = "LEFT" ∨ side = "RIGHT")
    (hf : hasKeys front [side ++ "_HIP", side ++ "_KNEE"])
    (hs : hasKeys side_lms [side ++ "_HIP", side ++ "_KNEE"])
    (hn : n ∈ [side ++ "_HIP", side ++ "_KNEE"]) :
    calculate_thigh_circumference front (removeKey side_lms n) c side =
      Except.error (CalcErr.keyError n) := by
  rcases hside with rfl | rfl
  · rw [show ("LEFT" ++ "_HIP" : String) = "LEFT_HIP" from rfl,
      show ("LEFT" ++ "_KNEE" : String) = "LEFT_KNEE" from rfl] at hf hs hn
    obtain ⟨p1, hp1⟩ := hasKeys_dictGet hf (show "LEFT_HIP" ∈ _ by simp)
    obtain ⟨p2, hp2⟩ := hasKeys_dictGet hf (show "LEFT_KNEE" ∈ _ by simp)
    obtain ⟨q1, hq1⟩ := hasKeys_dictGet hs (show "LEFT_HIP" ∈ _ by simp)
    simp only [List.mem_cons, List.not_mem_nil, or_false] at hn
    unfold calculate_thigh_circumference
    rw [show ("LEFT" ++ "_HIP" : String) = "LEFT_HIP" from rfl,
      show ("LEFT" ++ "_KNEE" : String) = "LEFT_KNEE" from rfl]
    rcases hn with rfl | rfl
    · simp only [hp1, hp2, except_ok_bind, dictGet_removeKey_self, except_error_bind]
    · simp only [hp1, hp2, except_ok_bind,
        dictGet_removeKey_ne side_lms "LEFT_KNEE" "LEFT_HIP" (by decide),
        hq1, dictGet_removeKey_self, except_error_bind]
  · rw [show ("RIGHT" ++ "_HIP" : String) = "RIGHT_HIP" from rfl,
      show ("RIGHT" ++ "_KNEE" : String) = "RIGHT_KNEE" from rfl] at hf hs hn
    obtain ⟨p1, hp1⟩ := hasKeys_dictGet hf (show "RIGHT_HIP" ∈ _ by simp)
    obtain ⟨p2, hp2⟩ := hasKeys_dictGet hf (show "RIGHT_KNEE" ∈ _ by simp)
    obtain ⟨q1, hq1⟩ := hasKeys_dictGet hs (show "RIGHT_HIP" ∈ _ by simp)
    simp only [List.mem_cons, List.not_mem_nil, or_false] at hn
    unfold calculate_thigh_circumference
    rw [show ("RIGHT" ++ "_HIP" : String) = "RIGHT_HIP" from rfl,
      show ("RIGHT" ++ "_KNEE" : String) = "RIGHT_KNEE" from rfl]
    rcases hn with rfl | rfl
    · simp only [hp1, hp2, except_ok_bind, dictGet_removeKey_self, except_error_bind]
    · simp only [hp1, hp2, except_ok_bind,
        dictGet_removeKey_ne side_lms "RIGHT_KNEE" "RIGHT_HIP" (by decide),
        hq1, dictGet_removeKey_self, except_error_bind]

/-- C5: removing any anatomical name referenced by a Linear or Elliptical
Measurer function from its (otherwise complete) input LandmarkSet makes the
function fail with the missing-landmark error naming exactly the removed
name, for every measurer function of the calculator. -/
theorem measurer_missing_landmark :
    (∀ (front : LandmarkSet) (c : ℚ) (n : String),
      hasKeys front ["LEFT_SHOULDER", "RIGHT_SHOULDER"] →
      n ∈ ["LEFT_SHOULDER", "RIGHT_SHOULDER"] →
      calculate_shoulder_width (removeKey front n) c =
        Except.error (CalcErr.keyError n)) ∧
    (∀ (front : LandmarkSet) (c : ℚ) (side n : String),
      side = "LEFT" ∨ side = "RIGHT" →
      hasKeys front [side ++ "_SHOULDER", side ++ "_ELBOW", side ++ "_WRIST"] →
      n ∈ [side ++ "_SHOULDER", side ++ "_ELBOW", side ++ "_WRIST"] →
      calculate_sleeve_length (removeKey front n) c side =
        Except.error (CalcErr.keyError n)) ∧
    (∀ (front : LandmarkSet) (c : ℚ) (n : String),
      hasKeys front ["LEFT_HIP", "RIGHT_HIP", "LEFT_ANKLE", "RIGHT_ANKLE"] →
      n ∈ ["LEFT_HIP", "RIGHT_HIP", "LEFT_ANKLE", "RIGHT_ANKLE"] →
      calculate_inseam (removeKey front n) c = Except.error (CalcErr.keyError n)) ∧
    (∀ (front : LandmarkSet) (c : ℚ) (n : String),
      hasKeys front ["LEFT_HIP", "RIGHT_HIP", "LEFT_ANKLE", "RIGHT_ANKLE"] →
      n ∈ ["LEFT_HIP", "RIGHT_HIP", "LEFT_ANKLE", "RIGHT_ANKLE"] →
      calculate_outseam (removeKey front n) c = Except.error (CalcErr.keyError n)) ∧
    (∀ (front side_lms : LandmarkSet) (c : ℚ) (n : String),
      hasKeys front ["LEFT_SHOULDER", "RIGHT_SHOULDER"] →
      n ∈ ["LEFT_SHOULDER", "RIGHT_SHOULDER"] →
      calculate_neck_circumference (removeKey front n) side_lms c =
        Except.error (CalcErr.keyError n)) ∧
    (∀ (front side_lms : LandmarkSet) (c : ℚ) (n : String),
      hasKeys front ["LEFT_SHOULDER", "RIGHT_SHOULDER"] →
      hasKeys side_lms ["LEFT_SHOULDER", "RIGHT_SHOULDER"] →
      n ∈ ["LEFT_SHOULDER", "RIGHT_SHOULDER"] →
      calculate_neck_circumference front (removeKey side_lms n) c =
        Except.error (CalcErr.keyError n)) ∧
    (∀ (front side_lms : LandmarkSet) (c : ℚ) (n : String),
      hasKeys front ["LEFT_SHOULDER", "RIGHT_SHOULDER"] →
      n ∈ ["LEFT_SHOULDER", "RIGHT_SHOULDER"] →
      calculate_chest_circumference (removeKey front n) side_lms c =
        Except.error (CalcErr.keyError n)) ∧
    (∀ (front side_lms : LandmarkSet) (c : ℚ) (n : String),
      hasKeys front ["LEFT_SHOULDER", "RIGHT_SHOULDER"] →
      hasKeys side_lms ["LEFT_SHOULDER", "RIGHT_SHOULDER", "LEFT_HIP"] →
      n ∈ ["LEFT_SHOULDER", "RIGHT_SHOULDER", "LEFT_HIP"] →
      calculate_chest_circumference front (removeKey side_lms n) c =
        Except.error (CalcErr.keyError n)) ∧
    (∀ (front side_lms : LandmarkSet) (c : ℚ) (n : String),
      hasKeys front ["LEFT_HIP", "RIGHT_HIP"] →
      n ∈ ["LEFT_HIP", "RIGHT_HIP"] →
      calculate_waist_circumference (removeKey front n) side_lms c =
        Except.error (CalcErr.keyError n)) ∧
    (∀ (front side_lms : LandmarkSet) (c : ℚ) (n : String),
      hasKeys front ["LEFT_HIP", "RIGHT_HIP"] →
      hasKeys side_lms ["LEFT_HIP", "RIGHT_HIP", "LEFT_SHOULDER"] →
      n ∈ ["LEFT_HIP", "RIGHT_HIP", "LEFT_SHOULDER"] →
      calculate_waist_circumference front (removeKey side_lms n) c =
        Except.error (CalcErr.keyError n)) ∧
    (∀ (front side_lms : LandmarkSet) (c : ℚ) (n : String),
      hasKeys front ["LEFT_HIP", "RIGHT_HIP"] →
      n ∈ ["LEFT_HIP", "RIGHT_HIP"] →
      calculate_hip_circumference (removeKey front n) side_lms c =
        Except.error (CalcErr.keyError n)) ∧
    (∀ (front side_lms : LandmarkSet) (c : ℚ) (n : String),
      hasKeys front ["LEFT_HIP", "RIGHT_HIP"] →
      hasKeys side_lms ["LEFT_HIP", "RIGHT_HIP", "LEFT_KNEE"] →
      n ∈ ["LEFT_HIP", "RIGHT_HIP", "LEFT_KNEE"] →
      calculate_hip_circumference front (removeKey side_lms n) c =
        Except.error (CalcErr.keyError n)) ∧
    (∀ (front side_lms : LandmarkSet) (c : ℚ) (side n : String),
      side = "LEFT" ∨ side = "RIGHT" →
      hasKeys front [side ++ "_SHOULDER", side ++ "_ELBOW"] →
      n ∈ [side ++ "_SHOULDER", side ++ "_ELBOW"] →
      calculate_bicep_circumference (removeKey front n) side_lms c side =
        Except.error (CalcErr.keyError n)) ∧
    (∀ (front side_lms : LandmarkSet) (c : ℚ) (side n : String),
      side = "LEFT" ∨ side = "RIGHT" →
      hasKeys front [side ++ "_SHOULDER", side ++ "_ELBOW"] →
      hasKeys side_lms [side ++ "_SHOULDER", side ++ "_ELBOW"] →
      n ∈ [side ++ "_SHOULDER", side ++ "_ELBOW"] →
      calculate_bicep_circumference front (removeKey side_lms n) c side =
        Except.error (CalcErr.keyError n)) ∧
    (∀ (front side_lms : LandmarkSet) (c : ℚ) (side n : String),
      side = "LEFT" ∨ side = "RIGHT" →
      hasKeys front [side ++ "_HIP", side ++ "_KNEE"] →
      n ∈ [side ++ "_HIP", side ++ "_KNEE"] →
      calculate_thigh_circumference (removeKey front n) side_lms c side =
        Except.error (CalcErr.keyError n)) ∧
    (∀ (front side_lms : LandmarkSet) (c : ℚ) (side n : String),
      side = "LEFT" ∨ side = "RIGHT" →
      hasKeys front [side ++ "_HIP", side ++ "_KNEE"] →
      hasKeys side_lms [side ++ "_HIP", side ++ "_KNEE"] →
      n ∈ [side ++ "_HIP", side ++ "_KNEE"] →
      calculate_thigh_circumference front (removeKey side_lms n) c side =
        Except.error (CalcErr.keyError n)) :=
  ⟨missing_shoulder_width,
    fun front c side n hside hf hn => missing_sleeve_length front c side n hside hf hn,
    missing_inseam,
    missing_outseam,
    missing_neck_front,
    missing_neck_side,
    missing_chest_front,
    missing_chest_side,
    missing_waist_front,
    missing_waist_side,
    missing_hip_front,
    missing_hip_side,
    fun front side_lms c side n hside hf hn =>
      missing_bicep_front front side_lms c side n hside hf hn,
    fun front side_lms c side n hside hf hs hn =>
      missing_bicep_side front side_lms c side n hside hf hs hn,
    fun front side_lms c side n hside hf hn =>
      missing_thigh_front front side_lms c side n hside hf hn,
    fun front side_lms c side n hside hf hs hn =>
      missing_thigh_side front side_lms c side n hside hf hs hn⟩

/-- C5 witness: deleting the right shoulder from a complete two-point front
set makes the shoulder width computation fail naming it. -/
theorem measurer_missing_landmark_witness :
    calculate_shoulder_width
      (removeKey [("LEFT_SHOULDER", (0, 0)), ("RIGHT_SHOULDER", (1, 0))]
        "RIGHT_SHOULDER") 1 =
      Except.error (CalcErr.keyError "RIGHT_SHOULDER") :=
  measurer_missing_landmark.1 _ 1 "RIGHT_SHOULDER" (by decide) (by decide)

end MFit
